import Mathlib

/-!
Verification of the RBAC / listing-moderation / reputation core of the
chepochem classifieds application (`src/chepochem_app`), as a shallow
embedding in Lean 4.

Conventions of the embedding:
* Django model rows become Lean structures; the database becomes explicit
  lists of rows inside an `AppState` record, and the `@transaction.atomic`
  services become functions `AppState → Except String AppState` — an
  `Except.error` result models the raised `ValidationError` together with
  the transaction rollback (no state change).
* Python strings stay `String`; `str.strip()` / `len` are modelled by
  `pyStrip` / `pyLen` over the character list.  Status / role / capability
  values stay the literal strings of the source.
* `DecimalField` money amounts are modelled in hundredths (kopecks) as
  `Int`, so the source's `price <= 0` and `price > 999999999.99` checks
  become exact integer comparisons.  Coordinates are `Option ℚ`.
* Python float comparisons `positive_count >= total_reviews * 0.8` are
  modelled over `ℚ`, where `0.8` is exact; IEEE rounding is not modelled.
* Timestamps (`timezone.now()`) are an explicit `now : Nat` parameter.
* Autoincrement primary keys of `Review`, `Notification`,
  `ListingModeration` and the activity log are not modelled; those rows
  are identified positionally in their append-only lists.
-/

namespace Chepochem

/-- A user row (`models.User`).  `role` is the name of the related `Role`
row; `none` models a user object whose `role` attribute access raises
`AttributeError`. -/
structure UserRec where
  id : Nat
  isAuthenticated : Bool
  isActive : Bool
  role : Option String
deriving DecidableEq, Repr

/-- A listing row (`models.Listing`).  Only the fields read or written by
the moderation / edit / authorization core are kept; `price` is in
hundredths. -/
structure Listing where
  id : Nat
  userId : Nat
  title : String
  description : String
  price : Int
  location : String
  latitude : Option ℚ
  longitude : Option ℚ
  isNegotiable : Bool
  isUrgent : Bool
  status : String
  createdAt : Nat
  updatedAt : Nat
  publishedAt : Option Nat
deriving DecidableEq, Repr

/-- A review row (`models.Review`). -/
structure Review where
  reviewerId : Nat
  reviewedUserId : Nat
  rating : Int
  comment : String
  isPositive : Bool
deriving DecidableEq, Repr

/-- A reputation row (`models.UserReputation`). -/
structure Reputation where
  userId : Nat
  totalScore : Int
  positiveReviews : Int
  negativeReviews : Int
  neutralReviews : Int
  reputationLevel : String
deriving DecidableEq, Repr

/-- A moderation record (`models.ListingModeration`). -/
structure ModerationRec where
  listingId : Nat
  moderatorId : Nat
  action : String
  reason : String
deriving DecidableEq, Repr

/-- A notification row (`models.Notification`); `ntype` is the source's
`type` field. -/
structure NotificationRec where
  userId : Nat
  ntype : String
  title : String
  content : String
  relatedEntityType : Option String
  relatedEntityId : Option Nat
deriving DecidableEq, Repr

/-- One row of the raw-SQL `user_activity_log` table written by
`UserActivityLogger.log_activity` (ip / user-agent / json details
omitted). -/
structure ActivityEntry where
  userId : Option Nat
  action : String
  entityType : Option String
  entityId : Option Nat
deriving DecidableEq, Repr

/-- The database state shared by the services. -/
structure AppState where
  users : List UserRec
  listings : List Listing
  reviews : List Review
  reputations : List Reputation
  moderations : List ModerationRec
  notifications : List NotificationRec
  activityLog : List ActivityEntry
deriving DecidableEq, Repr

/-- Python `str.strip()` (whitespace from both ends). -/
def pyStrip (s : String) : String :=
  String.mk ((((s.data.dropWhile Char.isWhitespace).reverse).dropWhile
    Char.isWhitespace).reverse)

/-- Python `len` on a string (number of characters). -/
def pyLen (s : String) : Nat :=
  s.data.length

/-- `DjangoRBACManager.ROLE_PERMISSIONS.get(role, [])`
(`django_rbac_security.py`, lines 15-64): the fixed role → capability
table, empty for unknown roles. -/
def rolePermissions (role : String) : List String :=
  if role = "user" then
    ["create_listing", "edit_own_listing", "delete_own_listing",
     "leave_review", "report_content", "manage_favorites", "view_profile",
     "view_own_notifications"]
  else if role = "moderator" then
    ["create_listing", "edit_own_listing", "delete_own_listing",
     "leave_review", "report_content", "manage_favorites", "view_profile",
     "view_own_notifications", "moderate_listings", "view_reports",
     "ban_users", "view_moderation_log", "view_all_notifications"]
  else if role = "admin" then
    ["create_listing", "edit_own_listing", "delete_own_listing",
     "leave_review", "report_content", "manage_favorites", "view_profile",
     "view_own_notifications", "moderate_listings", "view_reports",
     "ban_users", "view_moderation_log", "view_all_notifications",
     "manage_users", "manage_categories", "manage_roles",
     "view_statistics", "system_settings", "backup_management",
     "view_audit_log", "manage_permissions"]
  else []

/-- `DjangoRBACManager.get_user_role`: `None` for anonymous users, the
role name otherwise, with an `AttributeError` on a missing role defaulting
to `"user"`. -/
def getUserRole (u : UserRec) : Option String :=
  if u.isAuthenticated then some (u.role.getD "user") else none

/-- `DjangoRBACManager.has_permission(user, permission, entity_type,
entity_id)`.  The listing table is passed in for the
`Listing.objects.get(id=entity_id)` lookup; `entityId = some 0` is falsy
in Python and skips the ownership branch, like `None`. -/
def hasPermission (listings : List Listing) (u : UserRec)
    (permission : String) (entityType : Option String)
    (entityId : Option Nat) : Bool :=
  if ¬ u.isAuthenticated then false
  else
    match getUserRole u with
    | none => false
    | some role =>
      if role = "admin" then true
      else if role = "moderator" ∧
          permission ∈ ["moderate_listings", "view_reports", "ban_users"] then
        true
      else
        let ownerBranch : Option Bool :=
          if entityType = some "listing" ∧ entityId ≠ none ∧
              entityId ≠ some 0 then
            match entityId with
            | some eid =>
              match listings.find? (fun l => l.id == eid) with
              | some listing =>
                if listing.userId = u.id then
                  some (permission ∈ ["edit_own_listing", "delete_own_listing"])
                else none
              | none => none
            | none => none
          else none
        match ownerBranch with
        | some b => b
        | none => permission ∈ rolePermissions role

/-- `Listing.clean` (`models.py`, lines 200-234) as a pass/fail check:
`true` iff `full_clean` raises no `ValidationError`. -/
def listingCleanOk (l : Listing) : Bool :=
  decide (10 ≤ pyLen (pyStrip l.title)) && decide (pyLen l.title ≤ 255) &&
  decide (20 ≤ pyLen (pyStrip l.description)) &&
  decide (pyLen l.description ≤ 5000) &&
  decide (0 < l.price) && decide (l.price ≤ 99999999999) &&
  (match l.latitude with
   | some x => decide (-90 ≤ x) && decide (x ≤ 90)
   | none => true) &&
  (match l.longitude with
   | some x => decide (-180 ≤ x) && decide (x ≤ 180)
   | none => true) &&
  (l.latitude.isSome == l.longitude.isSome)

/-- `Listing.save` (`models.py`, lines 236-241): `full_clean`, refresh
`updated_at`, and set `published_at` iff the status is `active` and
`published_at` is still unset. -/
def listingSave (l : Listing) (now : Nat) : Except String Listing :=
  if listingCleanOk l then
    let l1 := { l with updatedAt := now }
    if l1.status = "active" ∧ l1.publishedAt = none then
      Except.ok { l1 with publishedAt := some now }
    else
      Except.ok l1
  else
    Except.error "ValidationError: Listing.full_clean"

/-- Persisting a saved listing row: the row with the same primary key is
replaced. -/
def setListingById (listings : List Listing) (l : Listing) : List Listing :=
  listings.map (fun x => if x.id = l.id then l else x)

/-- `UserActivityLogger.log_activity` (`django_orm_services.py`, lines
452-487): appends one row; its own `try/except` swallows every failure,
so it is total. -/
def logActivity (st : AppState) (userId : Option Nat) (action : String)
    (entityType : Option String) (entityId : Option Nat) : AppState :=
  { st with activityLog :=
      st.activityLog ++ [⟨userId, action, entityType, entityId⟩] }

/-- `Notification.objects.create(...)`: appends one notification row. -/
def addNotification (st : AppState) (n : NotificationRec) : AppState :=
  { st with notifications := st.notifications ++ [n] }

/-- `ListingModeration.objects.create(...)`: appends one moderation
record. -/
def addModeration (st : AppState) (m : ModerationRec) : AppState :=
  { st with moderations := st.moderations ++ [m] }

/-- The transaction boundary of `@transaction.atomic`: an `ok` result
commits the new state, an `error` (raised `ValidationError`) rolls back
to the state before the call. -/
def commit (st : AppState) (r : Except String AppState) : AppState :=
  match r with
  | Except.ok st' => st'
  | Except.error _ => st

/-- The optional fields of `update_data` accepted by
`ListingTransactionService.update_listing_with_rollback`. -/
structure UpdateData where
  title : Option String
  description : Option String
  price : Option Int
  location : Option String
  isNegotiable : Option Bool
  isUrgent : Option Bool
deriving DecidableEq, Repr

/-- `update_data.get('title') and len(update_data['title'].strip()) == 0`:
the title key is present, truthy (non-empty), and whitespace-only. -/
def updateTitleInvalid (o : Option String) : Bool :=
  match o with
  | some t => !(t == "") && (pyLen (pyStrip t) == 0)
  | none => false

/-- `update_data.get('price') and update_data['price'] <= 0`: the price
key is present, truthy (non-zero), and non-positive. -/
def updatePriceInvalid (o : Option Int) : Bool :=
  match o with
  | some p => !(p == 0) && decide (p ≤ 0)
  | none => false

/-- `ListingTransactionService.update_listing_with_rollback(listing_id,
user_id, update_data)` (`django_orm_services.py`, lines 110-161): fetch
the listing by id and owner, validate, apply the partial update, force
the status back to `pending`, save, log. -/
def updateListingWithRollback (st : AppState) (listingId userId : Nat)
    (upd : UpdateData) (now : Nat) : Except String AppState :=
  match st.listings.find? (fun l => l.id == listingId && l.userId == userId) with
  | none => Except.error "Не удалось обновить объявление: DoesNotExist"
  | some listing =>
    if updateTitleInvalid upd.title then
      Except.error "Не удалось обновить объявление: Заголовок не может быть пустым"
    else if updatePriceInvalid upd.price then
      Except.error "Не удалось обновить объявление: Цена должна быть больше нуля"
    else
      let l1 := { listing with
        title := upd.title.getD listing.title
        description := upd.description.getD listing.description
        price := upd.price.getD listing.price
        location := upd.location.getD listing.location
        isNegotiable := upd.isNegotiable.getD listing.isNegotiable
        isUrgent := upd.isUrgent.getD listing.isUrgent
        status := "pending" }
      match listingSave l1 now with
      | Except.error e => Except.error e
      | Except.ok l2 =>
        let st1 := { st with listings := setListingById st.listings l2 }
        Except.ok (logActivity st1 (some userId) "update_listing"
          (some "listing") (some listingId))

/-- `ModerationTransactionService.moderate_listing_with_notification(
listing_id, moderator_id, action, reason)` (`django_orm_services.py`,
lines 261-333): role check on the moderator, fetch the listing filtered
to `status='pending'`, apply approve/reject with its notification, append
the moderation record, log.  Every raised error rolls the transaction
back. -/
def moderateListingWithNotification (st : AppState)
    (listingId moderatorId : Nat) (action reason : String) (now : Nat) :
    Except String AppState :=
  match st.users.find? (fun u => u.id == moderatorId) with
  | none => Except.error "Не удалось выполнить модерацию: User DoesNotExist"
  | some moderator =>
    match moderator.role with
    | none => Except.error "Не удалось выполнить модерацию: AttributeError"
    | some roleName =>
      if roleName ≠ "moderator" ∧ roleName ≠ "admin" then
        Except.error "Не удалось выполнить модерацию: Недостаточно прав для модерации"
      else
        match st.listings.find?
            (fun l => l.id == listingId && l.status == "pending") with
        | none => Except.error "Не удалось выполнить модерацию: Listing DoesNotExist"
        | some listing =>
          if action = "approve" then
            match listingSave
                { listing with status := "active", publishedAt := some now }
                now with
            | Except.error e => Except.error e
            | Except.ok l2 =>
              let st1 := { st with listings := setListingById st.listings l2 }
              let st2 := addNotification st1
                ⟨listing.userId, "listing_approved", "Объявление одобрено",
                  "Ваше объявление \"" ++ listing.title ++
                    "\" было одобрено и опубликовано.",
                  some "listing", some listing.id⟩
              let st3 := addModeration st2
                ⟨listingId, moderatorId, "approve", reason⟩
              Except.ok (logActivity st3 (some moderatorId)
                "moderate_listing" (some "listing") (some listingId))
          else if action = "reject" then
            match listingSave { listing with status := "rejected" } now with
            | Except.error e => Except.error e
            | Except.ok l2 =>
              let st1 := { st with listings := setListingById st.listings l2 }
              let st2 := addNotification st1
                ⟨listing.userId, "listing_rejected", "Объявление отклонено",
                  "Ваше объявление \"" ++ listing.title ++
                    "\" было отклонено. Причина: " ++
                    (if reason = "" then "Не указана" else reason),
                  some "listing", some listing.id⟩
              let st3 := addModeration st2
                ⟨listingId, moderatorId, "reject", reason⟩
              Except.ok (logActivity st3 (some moderatorId)
                "moderate_listing" (some "listing") (some listingId))
          else
            Except.error "Не удалось выполнить модерацию: Неверное действие модерации"

/-- The reputation-level rule shared verbatim by
`ReputationService.update_user_reputation` (`django_orm_services.py`,
lines 354-361) and `UserReputation.update_reputation` (`models.py`, lines
107-120); Python's `0.8` / `0.6` are the exact rationals. -/
def levelFromCounts (positive total : Int) : String :=
  if total = 0 then "newbie"
  else if ((positive : ℚ) ≥ (total : ℚ) * 0.8) then "master"
  else if ((positive : ℚ) ≥ (total : ℚ) * 0.6) then "expert"
  else "trusted"

/-- The counting part of `ReputationService.update_user_reputation`
(`django_orm_services.py`, lines 345-361): a full recompute of the
reputation row from the stored reviews of the user. -/
def computeReputation (reviews : List Review) (userId : Nat) : Reputation :=
  let rs := reviews.filter (fun r => r.reviewedUserId == userId)
  let totalReviews : Nat := rs.length
  let positiveCount : Nat := (rs.filter (fun r => r.isPositive)).length
  let negativeCount : Nat :=
    (rs.filter (fun r => !r.isPositive && decide (r.rating ≤ 2))).length
  let neutralCount : Nat :=
    (rs.filter (fun r => !r.isPositive && decide (2 < r.rating))).length
  let totalScore : Int := (rs.map (fun r => r.rating)).sum
  ⟨userId, totalScore, (positiveCount : Int), (negativeCount : Int),
    (neutralCount : Int),
    levelFromCounts (positiveCount : Int) (totalReviews : Int)⟩

/-- Persisting a reputation row: `get_or_create` followed by field
assignment and `save` nets out to replace-or-append. -/
def upsertReputation (reps : List Reputation) (rep : Reputation) :
    List Reputation :=
  if reps.any (fun x => x.userId == rep.userId) then
    reps.map (fun x => if x.userId = rep.userId then rep else x)
  else
    reps ++ [rep]

/-- `ReputationService.update_user_reputation(user_id)`
(`django_orm_services.py`, lines 339-384).  The whole body sits in a
`try/except` that only logs, so the function is total and never raises;
`storageFail = true` is the oracle for an internal storage failure, in
which case the caught exception leaves the state as it was. -/
def serviceUpdateUserReputation (st : AppState) (userId : Nat)
    (storageFail : Bool) : AppState :=
  if storageFail then st
  else
    { st with reputations :=
        upsertReputation st.reputations (computeReputation st.reviews userId) }

/-- `Review.clean` (`models.py`, lines 309-323) as a pass/fail check. -/
def reviewCleanOk (r : Review) : Bool :=
  decide (1 ≤ r.rating) && decide (r.rating ≤ 5) &&
  decide (10 ≤ pyLen (pyStrip r.comment)) &&
  decide (pyLen r.comment ≤ 2000) &&
  !(r.reviewerId == r.reviewedUserId)

/-- `Review.save` (`models.py`, lines 325-329) minus its reputation hook:
`full_clean`, then `is_positive = rating >= 4`. -/
def reviewSave (r : Review) : Except String Review :=
  if reviewCleanOk r then
    Except.ok { r with isPositive := decide (4 ≤ r.rating) }
  else
    Except.error "ValidationError: Review.full_clean"

/-- `Review.update_user_reputation` applied to one reputation row
(`models.py`, lines 334-346): bump one counter and the score from the
previously stored values, then rederive the level from the patched
counters (`UserReputation.update_reputation`). -/
def reviewHookPatch (rep : Reputation) (r : Review) : Reputation :=
  let rep1 :=
    if r.isPositive then
      { rep with positiveReviews := rep.positiveReviews + 1 }
    else if r.rating ≤ 2 then
      { rep with negativeReviews := rep.negativeReviews + 1 }
    else
      { rep with neutralReviews := rep.neutralReviews + 1 }
  let rep2 := { rep1 with totalScore := rep1.totalScore + r.rating }
  { rep2 with reputationLevel := (levelFromCounts rep2.positiveReviews
      (rep2.positiveReviews + rep2.negativeReviews + rep2.neutralReviews)) }

/-- The full `Review.update_user_reputation` hook run by `Review.save`:
`get_or_create` the reputation row (defaults are the model-field
defaults), patch it incrementally, persist. -/
def hookUpdateReputations (reps : List Reputation) (r : Review) :
    List Reputation :=
  let rep0 := (reps.find? (fun x => x.userId == r.reviewedUserId)).getD
    ⟨r.reviewedUserId, 0, 0, 0, 0, "newbie"⟩
  upsertReputation reps (reviewHookPatch rep0 r)

/-- `ReviewTransactionService.create_review_with_reputation_update(
reviewer_id, reviewed_user_id, rating, comment)`
(`django_orm_services.py`, lines 205-255): validations, duplicate check,
`Review.objects.create` (which runs `Review.save` and its incremental
reputation hook), then the service's full recompute, then the activity
log.  `repFail` is the storage-failure oracle of the recompute. -/
def createReviewWithReputationUpdate (st : AppState)
    (reviewerId reviewedUserId : Nat) (rating : Int) (comment : String)
    (repFail : Bool) : Except String AppState :=
  if rating < 1 ∨ 5 < rating then
    Except.error "Не удалось создать отзыв: Рейтинг должен быть от 1 до 5"
  else if reviewerId = reviewedUserId then
    Except.error "Не удалось создать отзыв: Нельзя оставить отзыв самому себе"
  else
    match st.users.find? (fun u => u.id == reviewerId && u.isActive) with
    | none => Except.error "Не удалось создать отзыв: User DoesNotExist"
    | some _ =>
      match st.users.find? (fun u => u.id == reviewedUserId && u.isActive) with
      | none => Except.error "Не удалось создать отзыв: User DoesNotExist"
      | some _ =>
        if st.reviews.any (fun r =>
            r.reviewerId == reviewerId &&
            r.reviewedUserId == reviewedUserId) then
          Except.error "Не удалось создать отзыв: Отзыв уже существует"
        else
          match reviewSave
              ⟨reviewerId, reviewedUserId, rating, comment,
                decide (4 ≤ rating)⟩ with
          | Except.error e => Except.error e
          | Except.ok r =>
            let st1 := { st with
              reviews := st.reviews ++ [r]
              reputations := hookUpdateReputations st.reputations r }
            let st2 := serviceUpdateUserReputation st1 reviewedUserId repFail
            Except.ok (logActivity st2 (some reviewerId) "create_review"
              (some "review") none)

/-- The tier rule as the specification words it (§4.3): first-match on
the ratio `positive / total`.  Kept separate from `levelFromCounts`
(which mirrors the source's `positive >= total * 0.8` shape) so the two
can be compared. -/
def tierFromSpec (positive total : Int) : String :=
  if total = 0 then "newbie"
  else if ((positive : ℚ) / (total : ℚ) ≥ 0.8) then "master"
  else if ((positive : ℚ) / (total : ℚ) ≥ 0.6) then "expert"
  else "trusted"

/-- A valid listing owned by user 1, in moderation, used by the
published-at scenario. -/
def c2Listing : Listing :=
  ⟨1, 1, "Nice bicycle for sale", "A very good bicycle in great shape",
    100000, "Moscow", none, none, true, false, "pending", 0, 0, none⟩

/-- Owner (id 1) and moderator (id 2) plus the pending listing. -/
def c2State0 : AppState :=
  ⟨[⟨1, true, true, some "user"⟩, ⟨2, true, true, some "moderator"⟩],
    [c2Listing], [], [], [], [], []⟩

/-- State after the first approval at time 100. -/
def c2State1 : AppState :=
  commit c2State0 (moderateListingWithNotification c2State0 1 2 "approve" "" 100)

/-- State after the owner edits the listing at time 150 (status returns
to `pending`). -/
def c2State2 : AppState :=
  commit c2State1 (updateListingWithRollback c2State1 1 1
    ⟨none, none, none, none, none, none⟩ 150)

/-- State after the second approval at time 200. -/
def c2State3 : AppState :=
  commit c2State2 (moderateListingWithNotification c2State2 1 2 "approve" "" 200)

/-- A state whose only listing (id 1) is `active`, with a moderator
(id 2); used against the invalid-transition path. -/
def c3State : AppState :=
  ⟨[⟨1, true, true, some "user"⟩, ⟨2, true, true, some "moderator"⟩],
    [⟨1, 1, "Nice bicycle for sale", "A very good bicycle in great shape",
      100000, "Moscow", none, none, true, false, "active", 0, 0, some 10⟩],
    [], [], [], [], []⟩

/-- Users 1 and 2 where user 2 already holds a (drifted) stored
reputation of 7 positive reviews although no review rows exist. -/
def c4State0 : AppState :=
  ⟨[⟨1, true, true, some "user"⟩, ⟨2, true, true, some "user"⟩], [], [],
    [⟨2, 40, 7, 0, 0, "master"⟩], [], [], []⟩

/-- An active listing owned by user 1, used for the owner-edit witness. -/
def c6State : AppState :=
  ⟨[⟨1, true, true, some "user"⟩],
    [⟨1, 1, "Nice bicycle for sale", "A very good bicycle in great shape",
      100000, "Moscow", none, none, true, false, "active", 0, 0, some 10⟩],
    [], [], [], [], []⟩

/-- The empty database, used for the review-validation witness. -/
def c7State : AppState := ⟨[], [], [], [], [], [], []⟩

/-- A pending listing owned by user 1 and a moderator (id 2), used for
the rejection witness. -/
def c8State : AppState :=
  ⟨[⟨1, true, true, some "user"⟩, ⟨2, true, true, some "moderator"⟩],
    [⟨1, 1, "Nice bicycle for sale", "A very good bicycle in great shape",
      100000, "Moscow", none, none, true, false, "pending", 0, 0, none⟩],
    [], [], [], [], []⟩

/-- Users 1 and 2 with a stored reputation row for user 2 and no
reviews. -/
def c10State0 : AppState :=
  ⟨[⟨1, true, true, some "user"⟩, ⟨2, true, true, some "user"⟩], [], [],
    [⟨2, 0, 0, 0, 0, "newbie"⟩], [], [], []⟩

/-! Helper lemmas. -/

/-- `levelFromCounts` over exact integer arithmetic: multiplying the
rational comparisons through by 5. -/
theorem levelFromCounts_char (p t : Int) :
    levelFromCounts p t =
      if t = 0 then "newbie"
      else if 4 * t ≤ 5 * p then "master"
      else if 3 * t ≤ 5 * p then "expert"
      else "trusted" := by
  unfold levelFromCounts
  by_cases h0 : t = 0
  · simp [h0]
  · have h8 : ((p : ℚ) ≥ (t : ℚ) * 0.8) ↔ (4 * t ≤ 5 * p) := by
      rw [ge_iff_le, show (0.8 : ℚ) = 4 / 5 by norm_num, ← mul_div_assoc,
        div_le_iff₀ (by norm_num : (0 : ℚ) < 5)]
      have hcast : ((t : ℚ) * 4 ≤ (p : ℚ) * 5) ↔ ((t * 4 : ℤ) ≤ (p * 5 : ℤ)) := by
        constructor
        · intro hh; exact_mod_cast hh
        · intro hh; exact_mod_cast hh
      rw [hcast]
      omega
    have h6 : ((p : ℚ) ≥ (t : ℚ) * 0.6) ↔ (3 * t ≤ 5 * p) := by
      rw [ge_iff_le, show (0.6 : ℚ) = 3 / 5 by norm_num, ← mul_div_assoc,
        div_le_iff₀ (by norm_num : (0 : ℚ) < 5)]
      have hcast : ((t : ℚ) * 3 ≤ (p : ℚ) * 5) ↔ ((t * 3 : ℤ) ≤ (p * 5 : ℤ)) := by
        constructor
        · intro hh; exact_mod_cast hh
        · intro hh; exact_mod_cast hh
      rw [hcast]
      omega
    simp only [h0, if_false, h8, h6]

/-- The source's `positive >= total * 0.8` rule agrees with the
specification's `positive / total >= 0.8` rule whenever the total is a
count (non-negative). -/
theorem levelFromCounts_eq_tierFromSpec (p t : Int) (ht : 0 ≤ t) :
    levelFromCounts p t = tierFromSpec p t := by
  unfold levelFromCounts tierFromSpec
  by_cases h0 : t = 0
  · simp [h0]
  · have htQ : (0 : ℚ) < (t : ℚ) := by
      have : 0 < t := lt_of_le_of_ne ht (Ne.symm h0)
      exact_mod_cast this
    have h8 : ((t : ℚ) * 0.8 ≤ (p : ℚ)) ↔ ((0.8 : ℚ) ≤ (p : ℚ) / (t : ℚ)) := by
      rw [le_div_iff₀ htQ, mul_comm]
    have h6 : ((t : ℚ) * 0.6 ≤ (p : ℚ)) ↔ ((0.6 : ℚ) ≤ (p : ℚ) / (t : ℚ)) := by
      rw [le_div_iff₀ htQ, mul_comm]
    rw [if_neg h0, if_neg h0]
    by_cases hm : (t : ℚ) * 0.8 ≤ (p : ℚ)
    · rw [if_pos hm, if_pos (h8.mp hm)]
    · rw [if_neg hm, if_neg (fun hh => hm (h8.mpr hh))]
      by_cases he : (t : ℚ) * 0.6 ≤ (p : ℚ)
      · rw [if_pos he, if_pos (h6.mp he)]
      · rw [if_neg he, if_neg (fun hh => he (h6.mpr hh))]

/-- The three review filters of the recompute partition the review
list. -/
theorem review_filter_partition (l : List Review) :
    (l.filter (fun r => r.isPositive)).length
      + (l.filter (fun r => !r.isPositive && decide (r.rating ≤ 2))).length
      + (l.filter (fun r => !r.isPositive && decide (2 < r.rating))).length
      = l.length := by
  induction l with
  | nil => rfl
  | cons x xs ih =>
    simp only [List.filter_cons]
    by_cases hp : x.isPositive = true
    · simp only [hp, Bool.not_true, Bool.false_and, if_true, if_false,
        Bool.false_eq_true, List.length_cons]
      omega
    · have hp' : x.isPositive = false := by
        cases hx : x.isPositive
        · rfl
        · exact absurd hx hp
      by_cases hr : x.rating ≤ 2
      · simp only [hp', Bool.not_false, Bool.true_and, hr, decide_True,
          not_lt.mpr hr, decide_False, if_true, if_false,
          Bool.false_eq_true, List.length_cons]
        omega
      · simp only [hp', Bool.not_false, Bool.true_and, hr, decide_False,
          not_le.mp hr, decide_True, if_true, if_false,
          Bool.false_eq_true, List.length_cons]
        omega

/-- A successful `listingSave` only touches `updatedAt` and (under the
set-once guard) `publishedAt`. -/
theorem listingSave_ok_fields (l : Listing) (now : Nat) (l2 : Listing)
    (h : listingSave l now = Except.ok l2) :
    l2.id = l.id ∧ l2.userId = l.userId ∧ l2.title = l.title ∧
    l2.status = l.status ∧
    l2.publishedAt = (if l.status = "active" ∧ l.publishedAt = none
      then some now else l.publishedAt) := by
  unfold listingSave at h
  by_cases hc : listingCleanOk l = true
  · rw [if_pos hc] at h
    by_cases hg : l.status = "active" ∧ l.publishedAt = none
    · rw [if_pos hg] at h
      injection h with h2
      subst h2
      exact ⟨rfl, rfl, rfl, rfl, (if_pos hg).symm⟩
    · rw [if_neg hg] at h
      injection h with h2
      subst h2
      exact ⟨rfl, rfl, rfl, rfl, (if_neg hg).symm⟩
  · rw [if_neg hc] at h
    cases h

/-- After persisting a saved row, looking the id up again returns
exactly that row. -/
theorem find?_setListingById (l' : Listing) (i : Nat) (hid : l'.id = i) :
    ∀ xs : List Listing, (∃ x ∈ xs, x.id = i) →
      (setListingById xs l').find? (fun x => x.id == i) = some l' := by
  intro xs
  induction xs with
  | nil =>
    intro hx
    simp at hx
  | cons y ys ih =>
    intro hx
    simp only [setListingById, List.map_cons]
    by_cases hy : y.id = l'.id
    · rw [if_pos hy]
      rw [List.find?_cons_of_pos (p := fun x : Listing => x.id == i)
        (a := l') _ (by simp [hid])]
    · rw [if_neg hy]
      rw [List.find?_cons_of_neg (p := fun x : Listing => x.id == i)
        (a := y) _ (by simp only [beq_iff_eq]; intro hcon; exact hy (hcon.trans hid.symm))]
      apply ih
      rcases hx with ⟨x, hxmem, hxi⟩
      rcases List.mem_cons.mp hxmem with hcase | hcase
      · exfalso
        rw [hcase] at hxi
        exact hy (hxi.trans hid.symm)
      · exact ⟨x, hcase, hxi⟩

/-- Replacing every row of a user id in a list that contains one, then
looking that id up, returns the replacement. -/
theorem find?_map_replace (rep : Reputation) :
    ∀ reps : List Reputation,
      reps.any (fun x => x.userId == rep.userId) = true →
      (reps.map (fun x => if x.userId = rep.userId then rep else x)).find?
        (fun x => x.userId == rep.userId) = some rep := by
  intro reps
  induction reps with
  | nil =>
    intro h
    simp at h
  | cons y ys ih =>
    intro h
    simp only [List.map_cons]
    by_cases hy : y.userId = rep.userId
    · rw [if_pos hy]
      rw [List.find?_cons_of_pos (p := fun x : Reputation => x.userId == rep.userId)
        (a := rep) _ (by simp)]
    · rw [if_neg hy]
      rw [List.find?_cons_of_neg (p := fun x : Reputation => x.userId == rep.userId)
        (a := y) _ (by simp [hy])]
      apply ih
      simp only [List.any_cons, Bool.or_eq_true] at h
      rcases h with h | h
      · exact absurd (by simpa using h) hy
      · exact h

/-- Appending a row to a list in which its user id is absent, then
looking that id up, returns the appended row. -/
theorem find?_append_singleton (rep : Reputation) :
    ∀ reps : List Reputation,
      reps.find? (fun x => x.userId == rep.userId) = none →
      (reps ++ [rep]).find? (fun x => x.userId == rep.userId) = some rep := by
  intro reps
  induction reps with
  | nil =>
    intro _
    simp
  | cons y ys ih =>
    intro hnone
    have hy : (y.userId == rep.userId) = false := by
      cases hcase : (y.userId == rep.userId)
      · rfl
      · exfalso
        rw [List.find?_cons_of_pos (p := fun x : Reputation => x.userId == rep.userId)
          (a := y) _ hcase] at hnone
        cases hnone
    rw [List.find?_cons_of_neg (p := fun x : Reputation => x.userId == rep.userId)
      (a := y) _ (by simp [hy])] at hnone
    rw [List.cons_append,
      List.find?_cons_of_neg (p := fun x : Reputation => x.userId == rep.userId)
        (a := y) _ (by simp [hy])]
    exact ih hnone

/-- After a replace-or-append upsert, looking the user id up returns the
upserted row. -/
theorem find?_upsertReputation (reps : List Reputation) (rep : Reputation) :
    (upsertReputation reps rep).find? (fun x => x.userId == rep.userId)
      = some rep := by
  unfold upsertReputation
  by_cases hany : reps.any (fun x => x.userId == rep.userId) = true
  · rw [if_pos hany]
    exact find?_map_replace rep reps hany
  · rw [if_neg hany]
    apply find?_append_singleton
    rw [List.find?_eq_none]
    intro x hx hpx
    exact hany (List.any_eq_true.mpr ⟨x, hx, hpx⟩)

/-! Claim theorems. -/

/-- C1: the claim says that an authenticated actor of role `user` gets
`Denied` from `has_permission(A, 'edit_own_listing', 'listing', L.id)`
for every existing listing L that A does not own.  Evaluating the code at
such an input shows the opposite: after the ownership branch falls
through for a non-owner, the final role-table lookup finds
`edit_own_listing` in the `user` capability list and returns `True`.
Here actor 1 (role `user`) is checked against listing 10 owned by
user 2. -/
theorem c1_has_permission_allows_nonowner_user_edit :
    hasPermission
      [⟨10, 2, "Nice bicycle for sale", "A very good bicycle in great shape",
        100000, "Moscow", none, none, true, false, "pending", 0, 0, none⟩]
      ⟨1, true, true, some "user"⟩ "edit_own_listing" (some "listing")
      (some 10) = true := by
  decide

/-- C2: the claim says `published_at` is assigned at most once and a
re-approved listing keeps the value of its first approval.  Running the
code refutes it: approve at time 100 (`published_at = 100`), owner edit
at 150 (status back to `pending`, `published_at` kept), approve again at
time 200 — `moderate_listing_with_notification` assigns
`published_at = timezone.now()` unconditionally, so the stored value
becomes 200, not 100. -/
theorem c2_published_at_overwritten_on_reapproval :
    (moderateListingWithNotification c2State2 1 2 "approve" "" 200).isOk
        = true ∧
    (c2State1.listings.find? (fun l => l.id == 1)).map Listing.publishedAt
        = some (some 100) ∧
    (c2State2.listings.find? (fun l => l.id == 1)).map Listing.publishedAt
        = some (some 100) ∧
    (c2State3.listings.find? (fun l => l.id == 1)).map Listing.publishedAt
        = some (some 200) := by
  refine ⟨by decide, by decide, by decide, by decide⟩

/-- C9: the fixed permission table is a chain of supersets
(`admin ⊇ moderator ⊇ user`), and every role identifier other than
`user`, `moderator`, `admin` is mapped to the empty capability set. -/
theorem c9_role_capability_hierarchy_and_unknown_empty :
    (rolePermissions "user" ⊆ rolePermissions "moderator" ∧
     rolePermissions "moderator" ⊆ rolePermissions "admin") ∧
    ∀ r : String, r ≠ "user" → r ≠ "moderator" → r ≠ "admin" →
      rolePermissions r = [] := by
  refine ⟨⟨?_, ?_⟩, ?_⟩
  · have hb : ∀ a ∈ rolePermissions "user", a ∈ rolePermissions "moderator" := by
      decide
    exact fun _ ha => hb _ ha
  · have hb : ∀ a ∈ rolePermissions "moderator", a ∈ rolePermissions "admin" := by
      decide
    exact fun _ ha => hb _ ha
  · intro r h1 h2 h3
    simp only [rolePermissions, if_neg h1, if_neg h2, if_neg h3]

/-- Witness for C9 at the concrete unknown role `"ghost"`. -/
theorem c9_role_capability_hierarchy_witness :
    (("ghost" : String) ≠ "user" ∧ ("ghost" : String) ≠ "moderator" ∧
      ("ghost" : String) ≠ "admin") ∧
    rolePermissions "ghost" = [] :=
  ⟨⟨by decide, by decide, by decide⟩,
    c9_role_capability_hierarchy_and_unknown_empty.2 "ghost" (by decide)
      (by decide) (by decide)⟩

/-- C3: when every listing carrying the requested id has a status other
than `pending`, `moderate_listing_with_notification` raises (an
`InvalidTransition`-style `ValidationError`) for any moderator and any
action, and the rolled-back transaction leaves the state — listings,
moderation records, notifications, and the activity log — exactly as it
was. -/
theorem c3_moderation_nonpending_rejected_without_mutation
    (st : AppState) (listingId moderatorId : Nat) (action reason : String)
    (now : Nat)
    (h : ∀ l ∈ st.listings, l.id = listingId → l.status ≠ "pending") :
    (∃ e, moderateListingWithNotification st listingId moderatorId action
        reason now = Except.error e) ∧
    commit st (moderateListingWithNotification st listingId moderatorId
        action reason now) = st := by
  have hfind : st.listings.find?
      (fun l => l.id == listingId && l.status == "pending") = none := by
    rw [List.find?_eq_none]
    intro l hl
    simp only [Bool.and_eq_true, beq_iff_eq, not_and]
    intro hid
    exact h l hl hid
  cases hres : moderateListingWithNotification st listingId moderatorId
      action reason now with
  | error e =>
    exact ⟨⟨e, rfl⟩, rfl⟩
  | ok st' =>
    exfalso
    unfold moderateListingWithNotification at hres
    rw [hfind] at hres
    split at hres
    · cases hres
    · split at hres
      · cases hres
      · split at hres
        · cases hres
        · cases hres

/-- Witness for C3: the active listing of `c3State` (approved at time
10) cannot be approved again; the call errors and the state is
untouched. -/
theorem c3_moderation_nonpending_rejected_witness :
    (∀ l ∈ c3State.listings, l.id = 1 → l.status ≠ "pending") ∧
    ((∃ e, moderateListingWithNotification c3State 1 2 "approve" "x" 100
        = Except.error e) ∧
     commit c3State (moderateListingWithNotification c3State 1 2 "approve"
        "x" 100) = c3State) :=
  ⟨by decide,
    c3_moderation_nonpending_rejected_without_mutation c3State 1 2 "approve"
      "x" 100 (by decide)⟩

/-- C6: whenever `update_listing_with_rollback` succeeds for the owner,
the (unconditional `listing.status = 'pending'` assignment means the)
stored listing ends in status `pending`, whatever its status was
before. -/
theorem c6_owner_edit_resets_status_to_pending (st : AppState)
    (listingId userId : Nat) (upd : UpdateData) (now : Nat) (st' : AppState)
    (h : updateListingWithRollback st listingId userId upd now
      = Except.ok st') :
    ∃ l', st'.listings.find? (fun x => x.id == listingId) = some l' ∧
      l'.status = "pending" := by
  unfold updateListingWithRollback at h
  split at h
  · cases h
  · rename_i listing hfind
    split at h
    · cases h
    · split at h
      · cases h
      · simp only [] at h
        split at h
        · cases h
        · rename_i l2 hsave
          injection h with hst
          obtain ⟨hid, _, _, hstat, _⟩ := listingSave_ok_fields _ _ _ hsave
          have hlid : listing.id = listingId := by
            have hp := List.find?_some hfind
            simp only [Bool.and_eq_true, beq_iff_eq] at hp
            exact hp.1
          have hmem : listing ∈ st.listings := List.mem_of_find?_eq_some hfind
          refine ⟨l2, ?_, ?_⟩
          · rw [← hst]
            show (setListingById st.listings l2).find?
              (fun x => x.id == listingId) = some l2
            exact find?_setListingById l2 listingId (hid.trans hlid) _
              ⟨listing, hmem, hlid⟩
          · exact hstat

/-- Witness for C6: the owner edits their `active` listing (changing no
field); the edit succeeds and the listing is back in `pending`. -/
theorem c6_owner_edit_resets_status_witness :
    updateListingWithRollback c6State 1 1 ⟨none, none, none, none, none, none⟩
        150 = Except.ok (commit c6State (updateListingWithRollback c6State 1 1
          ⟨none, none, none, none, none, none⟩ 150)) ∧
    (∃ l', (commit c6State (updateListingWithRollback c6State 1 1
        ⟨none, none, none, none, none, none⟩ 150)).listings.find?
          (fun x => x.id == 1) = some l' ∧ l'.status = "pending") :=
  ⟨by rfl,
    c6_owner_edit_resets_status_to_pending c6State 1 1
      ⟨none, none, none, none, none, none⟩ 150 _ (by rfl)⟩

/-- C8: rejecting a pending listing as an authorized moderator sets the
status to `rejected`, appends a `ListingModeration` record with action
`reject`, and appends a `listing_rejected` notification whose content
ends in the literal reason, or in the fixed default `"Не указана"` when
the reason is the empty string. -/
theorem c8_reject_sets_status_record_and_notification (st : AppState)
    (listingId moderatorId : Nat) (reason : String) (now : Nat)
    (l : Listing) (m : UserRec) (r : String)
    (hfind : st.listings.find?
      (fun x => x.id == listingId && x.status == "pending") = some l)
    (hclean : listingCleanOk l = true)
    (hmod : st.users.find? (fun u => u.id == moderatorId) = some m)
    (hrole : m.role = some r)
    (hr : r = "moderator" ∨ r = "admin") :
    ∃ st', moderateListingWithNotification st listingId moderatorId "reject"
        reason now = Except.ok st' ∧
      st'.listings.find? (fun x => x.id == listingId)
        = some { l with status := "rejected", updatedAt := now } ∧
      st'.moderations = st.moderations ++
        [⟨listingId, moderatorId, "reject", reason⟩] ∧
      st'.notifications = st.notifications ++
        [⟨l.userId, "listing_rejected", "Объявление отклонено",
          "Ваше объявление \"" ++ l.title ++
            "\" было отклонено. Причина: " ++
            (if reason = "" then "Не указана" else reason),
          some "listing", some l.id⟩] := by
  have hperm : ¬ (r ≠ "moderator" ∧ r ≠ "admin") := by
    rcases hr with hcase | hcase
    · exact fun hc => hc.1 hcase
    · exact fun hc => hc.2 hcase
  have hcleanRej : listingCleanOk { l with status := "rejected" } = true :=
    hclean
  have hsave : listingSave { l with status := "rejected" } now
      = Except.ok { l with status := "rejected", updatedAt := now } := by
    unfold listingSave
    rw [if_pos hcleanRej, if_neg]
    intro hcon
    exact absurd hcon.1 (by simp)
  have hlid : l.id = listingId := by
    have hp := List.find?_some hfind
    simp only [Bool.and_eq_true, beq_iff_eq] at hp
    exact hp.1
  have hmem : l ∈ st.listings := List.mem_of_find?_eq_some hfind
  cases hres : moderateListingWithNotification st listingId moderatorId
      "reject" reason now with
  | error e =>
    exfalso
    unfold moderateListingWithNotification at hres
    split at hres
    · rename_i heq
      rw [hmod] at heq
      cases heq
    · rename_i moderator' heq
      rw [hmod] at heq
      injection heq with heqm
      subst heqm
      split at hres
      · rename_i hroleEq
        rw [hrole] at hroleEq
        cases hroleEq
      · rename_i roleName' hroleEq
        rw [hrole] at hroleEq
        injection hroleEq with heqr
        subst heqr
        split at hres
        · rename_i hcond
          exact hperm hcond
        · split at hres
          · rename_i heq2
            rw [hfind] at heq2
            cases heq2
          · rename_i listing' heq2
            rw [hfind] at heq2
            injection heq2 with heql
            subst heql
            split at hres
            · rename_i hact
              exact absurd hact (by decide)
            · split at hres
              · split at hres
                · rename_i e2 hsaveEq
                  rw [hsave] at hsaveEq
                  cases hsaveEq
                · cases hres
              · rename_i hact2
                exact hact2 rfl
  | ok st' =>
    unfold moderateListingWithNotification at hres
    split at hres
    · cases hres
    · rename_i moderator' heq
      rw [hmod] at heq
      injection heq with heqm
      subst heqm
      split at hres
      · cases hres
      · rename_i roleName' hroleEq
        rw [hrole] at hroleEq
        injection hroleEq with heqr
        subst heqr
        split at hres
        · cases hres
        · split at hres
          · cases hres
          · rename_i listing' heq2
            rw [hfind] at heq2
            injection heq2 with heql
            subst heql
            split at hres
            · rename_i hact
              exact absurd hact (by decide)
            · split at hres
              · split at hres
                · cases hres
                · rename_i l2 hsaveEq
                  rw [hsave] at hsaveEq
                  injection hsaveEq with heqs
                  subst heqs
                  simp only [] at hres
                  injection hres with hst
                  subst hst
                  refine ⟨_, rfl, ?_, ?_, ?_⟩
                  · simp only [logActivity, addModeration, addNotification]
                    exact find?_setListingById
                      { l with status := "rejected", updatedAt := now }
                      listingId hlid _ ⟨l, hmem, hlid⟩
                  · rfl
                  · rfl
              · rename_i hact2
                exact absurd rfl hact2

/-- Witness for C8: rejecting the pending listing of `c8State` with the
empty reason; the notification content ends in the default
`"Не указана"`. -/
theorem c8_reject_witness :
    (c8State.listings.find?
        (fun x => x.id == 1 && x.status == "pending")
      = some (c8State.listings.get ⟨0, by decide⟩) ∧
     listingCleanOk (c8State.listings.get ⟨0, by decide⟩) = true ∧
     c8State.users.find? (fun u => u.id == 2)
      = some (c8State.users.get ⟨1, by decide⟩) ∧
     (c8State.users.get ⟨1, by decide⟩).role = some "moderator") ∧
    (∃ st', moderateListingWithNotification c8State 1 2 "reject" "" 100
        = Except.ok st' ∧
      st'.listings.find? (fun x => x.id == 1)
        = some { (c8State.listings.get ⟨0, by decide⟩) with
            status := "rejected", updatedAt := 100 } ∧
      st'.moderations = c8State.moderations ++ [⟨1, 2, "reject", ""⟩] ∧
      st'.notifications = c8State.notifications ++
        [⟨(c8State.listings.get ⟨0, by decide⟩).userId, "listing_rejected",
          "Объявление отклонено",
          "Ваше объявление \"" ++ (c8State.listings.get ⟨0, by decide⟩).title ++
            "\" было отклонено. Причина: " ++
            (if ("" : String) = "" then "Не указана" else ""),
          some "listing", some (c8State.listings.get ⟨0, by decide⟩).id⟩]) :=
  ⟨⟨by decide, by decide, by decide, by decide⟩,
    c8_reject_sets_status_record_and_notification c8State 1 2 "" 100
      (c8State.listings.get ⟨0, by decide⟩)
      (c8State.users.get ⟨1, by decide⟩) "moderator"
      (by decide) (by decide) (by decide) (by decide) (Or.inl rfl)⟩

/-- C7: a review-creation request whose rating is outside [1,5], or which
is a self-review, or which duplicates an existing (reviewer, reviewed)
pair, fails with a `ValidationError` and — the transaction rolling back —
mutates nothing: no `Review` row is added and the reputation rows are
untouched. -/
theorem c7_review_validation_rejects_before_mutation (st : AppState)
    (reviewerId reviewedUserId : Nat) (rating : Int) (comment : String)
    (repFail : Bool)
    (h : (rating < 1 ∨ 5 < rating) ∨ reviewerId = reviewedUserId ∨
      st.reviews.any (fun r => r.reviewerId == reviewerId &&
        r.reviewedUserId == reviewedUserId) = true) :
    (∃ e, createReviewWithReputationUpdate st reviewerId reviewedUserId
        rating comment repFail = Except.error e) ∧
    commit st (createReviewWithReputationUpdate st reviewerId reviewedUserId
        rating comment repFail) = st := by
  cases hres : createReviewWithReputationUpdate st reviewerId reviewedUserId
      rating comment repFail with
  | error e =>
    exact ⟨⟨e, rfl⟩, rfl⟩
  | ok st' =>
    exfalso
    unfold createReviewWithReputationUpdate at hres
    split at hres
    · cases hres
    · rename_i hrange
      split at hres
      · cases hres
      · rename_i hself
        split at hres
        · cases hres
        · split at hres
          · cases hres
          · split at hres
            · cases hres
            · rename_i hdup
              rcases h with hcase | hcase | hcase
              · exact hrange hcase
              · exact hself hcase
              · exact hdup hcase

/-- Witness for C7: a rating of 0 is rejected (against the empty
database) and the state is unchanged. -/
theorem c7_review_validation_witness :
    (((0 : Int) < 1 ∨ (5 : Int) < 0) ∨ (1 : Nat) = 2 ∨
      c7State.reviews.any (fun r => r.reviewerId == 1 &&
        r.reviewedUserId == 2) = true) ∧
    ((∃ e, createReviewWithReputationUpdate c7State 1 2 0 "Great seller!!"
        false = Except.error e) ∧
     commit c7State (createReviewWithReputationUpdate c7State 1 2 0
        "Great seller!!" false) = c7State) :=
  ⟨Or.inl (Or.inl (by decide)),
    c7_review_validation_rejects_before_mutation c7State 1 2 0
      "Great seller!!" false (Or.inl (Or.inl (by decide)))⟩

/-- C5: the recompute sets `positive` to the count of `is_positive`
reviews of the user, `negative` to the count with `rating <= 2` and not
positive, `neutral` to `total - positive - negative`, `score` to the sum
of ratings, and the level to the specification's first-match tier rule on
`positive / total`; in particular one rating-5 review gives `master` and
adding a rating-2 review recomputes to `trusted`. -/
theorem c5_recompute_fields_and_tier :
    (∀ (reviews : List Review) (userId : Nat),
      (computeReputation reviews userId).positiveReviews
        = (((reviews.filter (fun r => r.reviewedUserId == userId)).filter
            (fun r => r.isPositive)).length : Int) ∧
      (computeReputation reviews userId).negativeReviews
        = (((reviews.filter (fun r => r.reviewedUserId == userId)).filter
            (fun r => !r.isPositive && decide (r.rating ≤ 2))).length : Int) ∧
      (computeReputation reviews userId).neutralReviews
        = ((reviews.filter (fun r => r.reviewedUserId == userId)).length : Int)
          - (computeReputation reviews userId).positiveReviews
          - (computeReputation reviews userId).negativeReviews ∧
      (computeReputation reviews userId).totalScore
        = ((reviews.filter (fun r => r.reviewedUserId == userId)).map
            (fun r => r.rating)).sum ∧
      (computeReputation reviews userId).reputationLevel
        = tierFromSpec (computeReputation reviews userId).positiveReviews
            ((reviews.filter (fun r => r.reviewedUserId == userId)).length
              : Int)) ∧
    (computeReputation [⟨1, 2, 5, "Great seller, thanks!", true⟩]
        2).reputationLevel = "master" ∧
    (computeReputation [⟨1, 2, 5, "Great seller, thanks!", true⟩,
        ⟨3, 2, 2, "Bad experience here", false⟩] 2).reputationLevel
      = "trusted" := by
  refine ⟨?_, ?_, ?_⟩
  · intro reviews userId
    refine ⟨rfl, rfl, ?_, rfl, ?_⟩
    · have hpart := review_filter_partition
        (reviews.filter (fun r => r.reviewedUserId == userId))
      simp only [computeReputation]
      omega
    · exact levelFromCounts_eq_tierFromSpec _ _ (Int.natCast_nonneg _)
  · rw [show (computeReputation
        [(⟨1, 2, 5, "Great seller, thanks!", true⟩ : Review)]
        2).reputationLevel = levelFromCounts 1 1 from rfl,
      levelFromCounts_char]
    decide
  · rw [show (computeReputation
        [(⟨1, 2, 5, "Great seller, thanks!", true⟩ : Review),
          ⟨3, 2, 2, "Bad experience here", false⟩]
        2).reputationLevel = levelFromCounts 1 2 from rfl,
      levelFromCounts_char]
    decide

/-- C4 counterexample: the stored Reputation is not mutated only by the
full recompute.  `Review.save`'s hook patches the previously stored row
incrementally: starting from a drifted row with `positive = 7` and no
review rows, creating a rating-5 review while the service recompute fails
(exception caught and logged) leaves `positive = 8` — the prior stored
value plus one — although the full recompute over the actual review set
yields `positive = 1`. -/
theorem c4_reputation_incrementally_patched_counterexample :
    (createReviewWithReputationUpdate c4State0 1 2 5 "Отличный продавец!!"
        true).isOk = true ∧
    ((commit c4State0 (createReviewWithReputationUpdate c4State0 1 2 5
        "Отличный продавец!!" true)).reputations.find?
        (fun x => x.userId == 2)).map Reputation.positiveReviews = some 8 ∧
    (computeReputation (commit c4State0 (createReviewWithReputationUpdate
        c4State0 1 2 5 "Отличный продавец!!" true)).reviews
        2).positiveReviews = 1 := by
  refine ⟨by decide, by decide, by decide⟩

/-- C4 amended: the Reputation is first incrementally patched by the
`Review.save` hook and only then overwritten by the service's full
recompute; whenever `create_review_with_reputation_update` succeeds and
the recompute does not hit a storage failure, the stored row for the
reviewed user equals the full recompute over the stored review set —
independent of the previously stored Reputation values. -/
theorem c4_final_reputation_is_full_recompute (st : AppState)
    (reviewerId reviewedUserId : Nat) (rating : Int) (comment : String)
    (h : (createReviewWithReputationUpdate st reviewerId reviewedUserId
      rating comment false).isOk = true) :
    (commit st (createReviewWithReputationUpdate st reviewerId
        reviewedUserId rating comment false)).reputations.find?
        (fun x => x.userId == reviewedUserId)
      = some (computeReputation
          (commit st (createReviewWithReputationUpdate st reviewerId
            reviewedUserId rating comment false)).reviews
          reviewedUserId) := by
  cases hres : createReviewWithReputationUpdate st reviewerId reviewedUserId
      rating comment false with
  | error e =>
    rw [hres] at h
    exact Bool.noConfusion h
  | ok st' =>
    unfold createReviewWithReputationUpdate at hres
    split at hres
    · cases hres
    · split at hres
      · cases hres
      · split at hres
        · cases hres
        · split at hres
          · cases hres
          · split at hres
            · cases hres
            · split at hres
              · cases hres
              · rename_i r hsaveEq
                simp only [] at hres
                injection hres with hst
                subst hst
                show ((serviceUpdateUserReputation _ reviewedUserId
                    false).reputations).find?
                    (fun x => x.userId == reviewedUserId) = _
                simp only [serviceUpdateUserReputation, Bool.false_eq_true,
                  if_false]
                exact find?_upsertReputation _
                  (computeReputation (st.reviews ++ [r]) reviewedUserId)

/-- Witness for C4's amended theorem: creating a rating-5 review of
user 2 against `c10State0`-like data but with the drifted `c4State0`
reputation row; after the successful recompute the stored row is the full
recompute of the one-review set. -/
theorem c4_final_reputation_witness :
    (createReviewWithReputationUpdate c4State0 1 2 5 "Отличный продавец!!"
        false).isOk = true ∧
    (commit c4State0 (createReviewWithReputationUpdate c4State0 1 2 5
        "Отличный продавец!!" false)).reputations.find?
        (fun x => x.userId == 2)
      = some (computeReputation
          (commit c4State0 (createReviewWithReputationUpdate c4State0 1 2 5
            "Отличный продавец!!" false)).reviews 2) :=
  ⟨by decide,
    c4_final_reputation_is_full_recompute c4State0 1 2 5
      "Отличный продавец!!" (by decide)⟩

/-- C10 counterexample: with a storage failure inside the recompute
(exception caught and logged), the review-creation transaction still
commits — but the stored Reputation is NOT left unchanged: the
`Review.save` hook already patched it inside the same transaction, so the
rows after the commit differ from the rows before. -/
theorem c10_reputation_changed_despite_recompute_failure :
    (createReviewWithReputationUpdate c10State0 1 2 5 "Отличный продавец!!"
        true).isOk = true ∧
    (commit c10State0 (createReviewWithReputationUpdate c10State0 1 2 5
        "Отличный продавец!!" true)).reviews ≠ c10State0.reviews ∧
    (commit c10State0 (createReviewWithReputationUpdate c10State0 1 2 5
        "Отличный продавец!!" true)).reputations.map Reputation.totalScore
      ≠ c10State0.reputations.map Reputation.totalScore := by
  refine ⟨by decide, by decide, by decide⟩

/-- C10 amended: every failure inside
`ReputationService.update_user_reputation` is caught and logged, never
propagated: whether the recompute fails or not does not change whether
the enclosing review creation commits, and on a successful creation under
a recompute failure the new Review row is committed while the reputation
rows are exactly the output of the `Review.save` incremental hook — the
failed recompute itself wrote nothing (though the rows are therefore not
their pre-transaction values). -/
theorem c10_recompute_failure_swallowed_review_commits (st : AppState)
    (reviewerId reviewedUserId : Nat) (rating : Int) (comment : String) :
    ((createReviewWithReputationUpdate st reviewerId reviewedUserId rating
        comment true).isOk
      = (createReviewWithReputationUpdate st reviewerId reviewedUserId
        rating comment false).isOk) ∧
    ((createReviewWithReputationUpdate st reviewerId reviewedUserId rating
        comment true).isOk = true →
      ∃ r : Review,
        r = ⟨reviewerId, reviewedUserId, rating, comment,
          decide (4 ≤ rating)⟩ ∧
        (commit st (createReviewWithReputationUpdate st reviewerId
            reviewedUserId rating comment true)).reviews
          = st.reviews ++ [r] ∧
        (commit st (createReviewWithReputationUpdate st reviewerId
            reviewedUserId rating comment true)).reputations
          = hookUpdateReputations st.reputations r) := by
  constructor
  · unfold createReviewWithReputationUpdate
    split
    · rfl
    · split
      · rfl
      · split
        · rfl
        · split
          · rfl
          · split
            · rfl
            · split
              · rfl
              · rfl
  · intro h
    cases hres : createReviewWithReputationUpdate st reviewerId
        reviewedUserId rating comment true with
    | error e =>
      rw [hres] at h
      exact Bool.noConfusion h
    | ok st' =>
      unfold createReviewWithReputationUpdate at hres
      split at hres
      · cases hres
      · split at hres
        · cases hres
        · split at hres
          · cases hres
          · split at hres
            · cases hres
            · split at hres
              · cases hres
              · split at hres
                · cases hres
                · rename_i r hsaveEq
                  unfold reviewSave at hsaveEq
                  split at hsaveEq
                  · injection hsaveEq with hr2
                    subst hr2
                    simp only [] at hres
                    injection hres with hst
                    subst hst
                    exact ⟨_, rfl, rfl, rfl⟩
                  · cases hsaveEq

/-- Witness for C10's amended theorem at a concrete state: user 1 reviews
user 2 with rating 5 while the recompute fails. -/
theorem c10_recompute_failure_witness :
    ((createReviewWithReputationUpdate c10State0 1 2 5 "Отличный продавец!!"
        true).isOk
      = (createReviewWithReputationUpdate c10State0 1 2 5
        "Отличный продавец!!" false).isOk) ∧
    (∃ r : Review,
      r = ⟨1, 2, 5, "Отличный продавец!!", decide ((4 : Int) ≤ 5)⟩ ∧
      (commit c10State0 (createReviewWithReputationUpdate c10State0 1 2 5
          "Отличный продавец!!" true)).reviews
        = c10State0.reviews ++ [r] ∧
      (commit c10State0 (createReviewWithReputationUpdate c10State0 1 2 5
          "Отличный продавец!!" true)).reputations
        = hookUpdateReputations c10State0.reputations r) :=
  ⟨(c10_recompute_failure_swallowed_review_commits c10State0 1 2 5
      "Отличный продавец!!").1,
    (c10_recompute_failure_swallowed_review_commits c10State0 1 2 5
      "Отличный продавец!!").2 (by decide)⟩

end Chepochem
